import Mathlib

/-!
A verification development for a cafeteria RFID point-of-sale server.

The JavaScript sources are shallowly embedded: monetary amounts are
modelled as exact rationals (`ℚ`), timestamps as integers (`Time`,
milliseconds), MongoDB documents as Lean structures collected in a `Db`
record, and every fallible operation returns `Except String`.  Persisted
writes are made explicit by threading the `Db` value through each
operation.  Real-time broadcasts (`io.emit`) are modelled as an emitted
list of `Event`s.
-/

namespace RfidPos

/-- Monetary amounts (JavaScript numbers idealised as exact rationals). -/
abbrev Money : Type := ℚ

/-- Timestamps in milliseconds (JavaScript `Date` idealised as an integer). -/
abbrev Time : Type := ℤ

/-- ASCII lower-casing of one character, modelling `String.prototype.toLowerCase`
on the identifiers that appear in this system. -/
def asciiLower (c : Char) : Char :=
  if 'A' ≤ c && c ≤ 'Z' then Char.ofNat (c.toNat + 32) else c

/-- ASCII upper-casing of one character, modelling `String.prototype.toUpperCase`. -/
def asciiUpper (c : Char) : Char :=
  if 'a' ≤ c && c ≤ 'z' then Char.ofNat (c.toNat - 32) else c

/-- Lower-cased string (`name.toLowerCase()`). -/
def lowerStr (s : String) : String := ⟨s.data.map asciiLower⟩

/-- Upper-cased string (`uid.toString().toUpperCase()`). -/
def upperStr (s : String) : String := ⟨s.data.map asciiUpper⟩

/-- `needle` occurs at the start of `hay` (character lists). -/
def listStarts : List Char → List Char → Bool
  | [], _ => true
  | _ :: _, [] => false
  | a :: as, b :: bs => a == b && listStarts as bs

/-- `needle` occurs somewhere inside `hay` (character lists). -/
def listContains : List Char → List Char → Bool
  | [], needle => needle.isEmpty
  | h :: t, needle => listStarts needle (h :: t) || listContains t needle

/-- `s.includes(sub)` — substring containment test. -/
def strContains (s sub : String) : Bool := listContains s.data sub.data

/-! ## Data model (Mongoose schemas) -/

/-- `models/MealReservation.js` status enum. -/
inductive ReservationStatus where
  | pending
  | confirmed
  | prepared
  | served
  | cancelled
deriving DecidableEq, Repr

/-- `models/MealReservation.js` mealType enum. -/
inductive MealType where
  | breakfast
  | lunch
  | dinner
  | snack
deriving DecidableEq, Repr

/-- MongoDB sorts `mealType` by its stored string value; this key reproduces
the ascending order of the strings "breakfast" < "dinner" < "lunch" < "snack". -/
def MealType.sortKey : MealType → ℕ
  | .breakfast => 0
  | .dinner => 1
  | .lunch => 2
  | .snack => 3

/-- `models/Purchase.js` paymentStatus enum. -/
inductive PaymentStatus where
  | pending
  | paid
  | cancelled
deriving DecidableEq, Repr

/-- `models/Purchase.js` paymentMethod enum. -/
inductive PaymentMethod where
  | cash
  | monthly_billing
deriving DecidableEq, Repr

/-- `models/User.js` blockInfo sub-document. -/
structure BlockInfo where
  reason : String
  notes : String
  blockedAt : Option Time
  blockedBy : Option ℕ
  expiresAt : Option Time
  autoUnblockProcessed : Bool
deriving DecidableEq, Repr

/-- `models/User.js` document.  `id` stands for the Mongo `_id`. -/
structure User where
  id : ℕ
  uid : String
  name : String
  class_or_year : String
  user_category : String
  email : String
  isActive : Bool
  lastScanAt : Option Time
  scanCount : ℕ
  isBlocked : Bool
  blockInfo : BlockInfo
deriving DecidableEq, Repr

/-- `models/Food.js` document (fields used by this server). -/
structure Food where
  id : ℕ
  name : String
  category : String
  price : Money
  isAvailable : Bool
  isActive : Bool
deriving DecidableEq, Repr

/-- `models/MealReservation.js` document. -/
structure Reservation where
  id : ℕ
  parentId : ℕ
  studentId : ℕ
  foodId : ℕ
  reservationDate : Time
  quantity : ℕ
  mealType : MealType
  status : ReservationStatus
  estimatedCost : Money
  actualCost : Option Money
  servedAt : Option Time
  rfidProcessedAt : Option Time
  servedByStation : String
deriving DecidableEq, Repr

/-- `models/Purchase.js` line item. -/
structure PurchaseItem where
  foodId : ℕ
  name : String
  price : Money
  quantity : ℕ
  subtotal : Money
deriving DecidableEq, Repr

/-- `models/Purchase.js` document. -/
structure Purchase where
  userId : ℕ
  uid : String
  userName : String
  userCategory : String
  items : List PurchaseItem
  totalAmount : Money
  purchasedAt : Time
  paymentStatus : PaymentStatus
  paidAt : Option Time
  paymentMethod : Option PaymentMethod
  cashAmount : Option Money
  change : Option Money
  notes : String
  cafeteriaStation : String
  processedBy : String
deriving DecidableEq, Repr

/-- The record store: one collection per entity. -/
structure Db where
  users : List User
  foods : List Food
  reservations : List Reservation
  purchases : List Purchase
deriving DecidableEq, Repr

/-- `User.findById` / populate by `_id`. -/
def Db.findUser (db : Db) (userId : ℕ) : Option User :=
  db.users.find? (fun u => u.id == userId)

/-- `Food.findById` / populate by `_id`. -/
def Db.findFood (db : Db) (foodId : ℕ) : Option Food :=
  db.foods.find? (fun f => f.id == foodId)

/-- `MealReservation.findById`. -/
def Db.findReservation (db : Db) (rid : ℕ) : Option Reservation :=
  db.reservations.find? (fun r => r.id == rid)

/-- Persist an updated user document (`user.save()`), replacing it by `_id`. -/
def Db.saveUser (db : Db) (u : User) : Db :=
  { db with users := db.users.map (fun v => if v.id == u.id then u else v) }

/-- Persist an updated reservation document (`reservation.save()`). -/
def Db.saveReservation (db : Db) (r : Reservation) : Db :=
  { db with reservations := db.reservations.map (fun v => if v.id == r.id then r else v) }

/-- `User.findByIdAndUpdate(userId, { lastScanAt: new Date(), $inc: { scanCount: 1 } })`
and the `updateLastScan` instance method of `models/User.js`, which performs the
same write. -/
def Db.bumpScan (db : Db) (userId : ℕ) (now : Time) : Db :=
  { db with users := db.users.map (fun v =>
      if v.id == userId then { v with lastScanAt := some now, scanCount := v.scanCount + 1 } else v) }

/-! ## Purchase Ledger (`services/purchaseService.js`) -/

/-- The epsilon used by every totals comparison in the system. -/
def epsilon : Money := 1 / 100

/-- Payload of `completePurchase` / body of `POST /api/purchases/complete`.
Fields that JavaScript allows to be absent (`undefined`) are `Option`s. -/
structure PurchaseData where
  userId : Option ℕ
  uid : String
  userName : String
  userCategory : Option String
  items : List PurchaseItem
  totalAmount : Money
  paymentMethod : Option PaymentMethod
  paidAmount : Option Money
  cafeteriaStation : Option String
  processedBy : Option String
  notes : Option String
deriving DecidableEq, Repr

/-- Value returned by `PurchaseService.completePurchase` on success. -/
structure PurchaseResult where
  purchase : Purchase
  message : String
  change : Money
deriving DecidableEq, Repr

/-- `PurchaseService.calculateTotal`: sum of `price * quantity` over the items. -/
def calculateTotal (items : List PurchaseItem) : Money :=
  items.foldl (fun total item => total + item.price * (item.quantity : ℚ)) 0

/-- `PurchaseService.validatePurchaseItems`: each item's food must exist, be
active and available, and its submitted price must match the stored price
within `epsilon`. -/
def validatePurchaseItems (foods : List Food) : List PurchaseItem → Except String Unit
  | [] => .ok ()
  | item :: rest =>
    match foods.find? (fun f => f.id == item.foodId) with
    | none => .error ("Food item not found: " ++ item.name)
    | some food =>
      if !food.isAvailable || !food.isActive then
        .error ("Food item not available: " ++ food.name)
      else if |item.price - food.price| > epsilon then
        .error ("Price mismatch for " ++ food.name)
      else
        validatePurchaseItems foods rest

/-- `PurchaseService.completePurchase`.  Branches payment handling: `cash`
stamps the purchase `paid` with paid-at, tendered amount and, only when the
tendered amount exceeds the total, a change amount; `monthly_billing` (or an
absent method, as on the reservation path) leaves it `pending`.  Persists the
purchase and then updates the user's scan bookkeeping.  Free-text note strings
are kept as constant markers (the numeric formatting of the source is elided). -/
def completePurchase (now : Time) (d : PurchaseData) (db : Db) :
    Except String (PurchaseResult × Db) :=
  match d.userId with
  | none => .error "Invalid purchase data"
  | some userId =>
    if d.items.isEmpty then .error "Invalid purchase data"
    else
      let userCategory :=
        match d.userCategory with
        | some c => if c = "" then "student" else c
        | none => "student"
      let baseNotes := d.notes.getD ""
      let fields :
          Except String (PaymentStatus × Option Time × Option Money × Option Money × String) :=
        match d.paymentMethod with
        | some .cash =>
          match d.paidAmount with
          | none =>
            -- `purchaseData.paidAmount.toFixed(2)` raises a TypeError that the
            -- surrounding catch rethrows.
            .error "Purchase failed"
          | some p =>
            if p > d.totalAmount then
              .ok (.paid, some now, some p, some (p - d.totalAmount),
                   baseNotes ++ " | Cash payment" ++ " | Change")
            else
              .ok (.paid, some now, some p, none, baseNotes ++ " | Cash payment")
        | some .monthly_billing =>
          .ok (.pending, none, none, none,
               baseNotes ++ " | Added to monthly bill - parent will be charged")
        | none => .ok (.pending, none, none, none, baseNotes)
      match fields with
      | .error e => .error e
      | .ok (paymentStatus, paidAt, cashAmount, change, notes) =>
        let purchase : Purchase :=
          { userId := userId
            uid := d.uid
            userName := d.userName
            userCategory := userCategory
            items := d.items
            totalAmount := d.totalAmount
            purchasedAt := now
            paymentStatus := paymentStatus
            paidAt := paidAt
            paymentMethod := d.paymentMethod
            cashAmount := cashAmount
            change := change
            notes := notes
            cafeteriaStation := (d.cafeteriaStation.getD "STATION_001")
            processedBy := (d.processedBy.getD "rfid_system") }
        let db1 := { db with purchases := db.purchases ++ [purchase] }
        let db2 := db1.bumpScan userId now
        .ok ({ purchase := purchase
               message :=
                 if d.paymentMethod = some .cash then "Cash payment completed successfully"
                 else "Purchase added to monthly bill"
               change :=
                 match d.paymentMethod, d.paidAmount with
                 | some .cash, some p => if p > d.totalAmount then p - d.totalAmount else 0
                 | _, _ => 0 },
             db2)

/-- The purchase record the cash branch of `completePurchase` constructs
(an abbreviation used to state its evaluation). -/
def cashPurchase (now : Time) (d : PurchaseData) (u : ℕ) (p : Money)
    (change : Option Money) (notes : String) : Purchase :=
  { userId := u
    uid := d.uid
    userName := d.userName
    userCategory := match d.userCategory with
      | some c => if c = "" then "student" else c
      | none => "student"
    items := d.items
    totalAmount := d.totalAmount
    purchasedAt := now
    paymentStatus := .paid
    paidAt := some now
    paymentMethod := some .cash
    cashAmount := some p
    change := change
    notes := notes
    cafeteriaStation := d.cafeteriaStation.getD "STATION_001"
    processedBy := d.processedBy.getD "rfid_system" }

/-- Cash sufficiency test of the route: `!paidAmount || paidAmount < totalAmount`
(JavaScript falsiness makes a tendered amount of `0` insufficient too). -/
def cashInsufficient (d : PurchaseData) : Bool :=
  match d.paidAmount with
  | none => true
  | some p => p = 0 || p < d.totalAmount

/-- `POST /api/purchases/complete` (`routes/purchases.js`).  Validates the
payload, the items, the submitted total (within `epsilon` of the computed
total) and, for cash, the tendered amount, before delegating to
`completePurchase`.  The second component is the store after the request:
validation failures persist nothing. -/
def routeCompletePurchase (now : Time) (d : PurchaseData) (db : Db) :
    Except String PurchaseResult × Db :=
  if d.userId.isNone || d.items.isEmpty then
    (.error "Invalid purchase data", db)
  else if !(d.paymentMethod = some .cash ∨ d.paymentMethod = some .monthly_billing : Bool) then
    (.error "Invalid payment method", db)
  else
    match validatePurchaseItems db.foods d.items with
    | .error e => (.error e, db)
    | .ok _ =>
      if |calculateTotal d.items - d.totalAmount| > epsilon then
        (.error "Total amount mismatch", db)
      else if d.paymentMethod = some .cash ∧ cashInsufficient d then
        (.error "Insufficient cash amount", db)
      else
        match completePurchase now d db with
        | .ok (res, db') => (.ok res, db')
        | .error e => (.error e, db)

/-- The `completePurchase` Socket.IO handler of `server.js`: it calls
`PurchaseService.completePurchase` directly, with none of the route's
item/total/cash validation. -/
def socketCompletePurchase (now : Time) (d : PurchaseData) (db : Db) :
    Except String (PurchaseResult × Db) :=
  completePurchase now d db

/-! ## User Directory (`services/userService.js`) -/

/-- `UserService.getUserByUID`: `User.findOne({ uid, isActive: true })` —
the lookup itself filters on the activity flag. -/
def getUserByUID (db : Db) (uid : String) : Option User :=
  db.users.find? (fun u => u.uid == uid && u.isActive)

/-- Result of `UserService.validateUserAccess`. -/
structure AccessCheck where
  canAccess : Bool
  reason : Option String
  message : Option String
  expiresAt : Option Time
deriving DecidableEq, Repr

/-- The block sub-document written back by the auto-unblock branch. -/
def clearedBlockInfo : BlockInfo :=
  { reason := ""
    notes := ""
    blockedAt := none
    blockedBy := none
    expiresAt := none
    autoUnblockProcessed := false }

/-- `user.blockInfo.reason || 'This account has been temporarily blocked.'`. -/
def blockMessage (u : User) : String :=
  if u.blockInfo.reason = "" then "This account has been temporarily blocked."
  else u.blockInfo.reason

/-- `UserService.validateUserAccess`.  Returns the check outcome, the user
document as it stands afterwards, and whether that document was persisted
(`user.save()` happens only in the auto-unblock branch). -/
def validateUserAccess (now : Time) (u : User) : AccessCheck × User × Bool :=
  if !u.isActive then
    ({ canAccess := false
       reason := some "Account is inactive"
       message := some "This account has been deactivated. Please contact administration."
       expiresAt := none }, u, false)
  else if u.isBlocked then
    match u.blockInfo.expiresAt with
    | some e =>
      if now > e then
        let u' := { u with isBlocked := false, blockInfo := clearedBlockInfo }
        ({ canAccess := true, reason := none, message := none, expiresAt := none }, u', true)
      else
        ({ canAccess := false
           reason := some "Account is blocked"
           message := some (blockMessage u)
           expiresAt := u.blockInfo.expiresAt }, u, false)
    | none =>
      ({ canAccess := false
         reason := some "Account is blocked"
         message := some (blockMessage u)
         expiresAt := none }, u, false)
  else
    ({ canAccess := true, reason := none, message := none, expiresAt := none }, u, false)

/-! ## Reservation Workflow (`services/reservationService.js`) -/

/-- Milliseconds per calendar day. -/
def msPerDay : Time := 86400000

/-- `today.setHours(0, 0, 0, 0)`: local midnight of the current day
(the model aligns the local day boundary with multiples of `msPerDay`). -/
def startOfDay (now : Time) : Time := (now / msPerDay) * msPerDay

/-- `today.setHours(23, 59, 59, 999)`: last millisecond of the current day. -/
def endOfDay (now : Time) : Time := startOfDay now + (msPerDay - 1)

/-- The Mongo query filter of `getTodayReservations`: same student, reservation
date within the day, status in `['pending', 'confirmed', 'prepared']`. -/
def todayQuery (userId : ℕ) (now : Time) (r : Reservation) : Bool :=
  r.studentId == userId &&
  (startOfDay now ≤ r.reservationDate && r.reservationDate ≤ endOfDay now) &&
  (r.status == .pending || r.status == .confirmed || r.status == .prepared)

/-- `.sort({ mealType: 1, reservationDate: 1 })`: ascending meal-type string,
then ascending reservation date. -/
def reservationLE (a b : Reservation) : Bool :=
  a.mealType.sortKey < b.mealType.sortKey ||
  (a.mealType.sortKey == b.mealType.sortKey && a.reservationDate ≤ b.reservationDate)

/-- The successful branch of `ReservationService.getTodayReservations`. -/
def getTodayReservationsOk (db : Db) (userId : ℕ) (now : Time) : List Reservation :=
  (db.reservations.filter (todayQuery userId now)).mergeSort reservationLE

/-- `ReservationService.getTodayReservations`: a storage read failure is caught
and degrades to an empty list. -/
def getTodayReservations (fetched : Except String Db) (userId : ℕ) (now : Time) :
    List Reservation :=
  match fetched with
  | .error _ => []
  | .ok db => getTodayReservationsOk db userId now

/-- `mealReservationSchema.methods.markServedByRFID`. -/
def markServedByRFID (r : Reservation) (now : Time) (stationId : String) : Reservation :=
  { r with
    status := .served
    servedAt := some now
    rfidProcessedAt := some now
    servedByStation := stationId }

/-- The cost used for the synthesized purchase:
`reservation.actualCost || reservation.estimatedCost`.  JavaScript falsiness
means a recorded actual cost of `0` also falls back to the estimate. -/
def Reservation.effectiveCost (r : Reservation) : Money :=
  match r.actualCost with
  | some c => if c = 0 then r.estimatedCost else c
  | none => r.estimatedCost

/-- The purchase record `completePurchase` constructs for a confirmed
reservation's payload (an abbreviation used to state its evaluation). -/
def reservationPurchase (now : Time) (st : String) (r : Reservation) (food : Food)
    (student : User) : Purchase :=
  { userId := student.id
    uid := student.uid
    userName := student.name
    userCategory :=
      if (if student.user_category = "" then "student" else student.user_category) = ""
      then "student"
      else (if student.user_category = "" then "student" else student.user_category)
    items := [{ foodId := r.foodId
                name := food.name
                price := r.effectiveCost
                quantity := r.quantity
                subtotal := r.effectiveCost * (r.quantity : ℚ) }]
    totalAmount := r.effectiveCost * (r.quantity : ℚ)
    purchasedAt := now
    paymentStatus := .pending
    paidAt := none
    paymentMethod := none
    cashAmount := none
    change := none
    notes := "Reservation fulfilled"
    cafeteriaStation := st
    processedBy := "rfid_reservation_system" }

/-- The store as it stands after a successful reservation confirmation:
reservation marked served, one purchase appended, and the student's scan
bookkeeping bumped (an abbreviation used to state the evaluation of
`confirmReservation`). -/
def confirmedDb (now : Time) (st : String) (db : Db) (r : Reservation) (food : Food)
    (student : User) : Db :=
  { users := db.users.map (fun v => if v.id == student.id then
        { v with lastScanAt := some now, scanCount := v.scanCount + 1 } else v)
    foods := db.foods
    reservations := db.reservations.map
      (fun v => if v.id == r.id then markServedByRFID r now st else v)
    purchases := db.purchases ++ [reservationPurchase now st r food student] }

/-- `ReservationService.confirmReservation`.  Fails if the reservation is
missing, already served, or cancelled; otherwise marks it served and creates
one purchase record through `PurchaseService.completePurchase`.  The second
component is the store afterwards: when purchase creation fails the
reservation nevertheless stays marked served (`served-but-unbilled`). -/
def confirmReservation (now : Time) (stationId : String) (db : Db) (rid : ℕ) :
    Except String (Reservation × Purchase) × Db :=
  match db.findReservation rid with
  | none => (.error "Reservation not found", db)
  | some r =>
    if r.status = .served then (.error "Reservation has already been served", db)
    else if r.status = .cancelled then (.error "Cannot confirm a cancelled reservation", db)
    else
      let r' := markServedByRFID r now stationId
      let db1 := db.saveReservation r'
      match db.findFood r.foodId, db.findUser r.studentId with
      | some food, some student =>
        let d : PurchaseData :=
          { userId := some student.id
            uid := student.uid
            userName := student.name
            userCategory := some (if student.user_category = "" then "student"
                                  else student.user_category)
            items := [{ foodId := r.foodId
                        name := food.name
                        price := r.effectiveCost
                        quantity := r.quantity
                        subtotal := r.effectiveCost * (r.quantity : ℚ) }]
            totalAmount := r.effectiveCost * (r.quantity : ℚ)
            paymentMethod := none
            paidAmount := none
            cafeteriaStation := some stationId
            processedBy := some "rfid_reservation_system"
            notes := some "Reservation fulfilled" }
        match completePurchase now d db1 with
        | .ok (res, db2) => (.ok (r', res.purchase), db2)
        | .error e =>
          (.error ("Reservation served but failed to create purchase record: " ++ e), db1)
      | _, _ =>
        -- A dangling food or student reference makes the purchase-data build
        -- raise a TypeError, caught after the reservation is already served.
        (.error "Reservation served but failed to create purchase record", db1)

/-! ## Reader Manager and Scan Pipeline (`services/rfidService.js`) -/

/-- One in-memory scan history entry. -/
structure ScanEntry where
  uid : String
  timestamp : Time
  processed : Bool
deriving DecidableEq, Repr

/-- Real-time events emitted over Socket.IO, reduced to the fields the
claims inspect. -/
inductive Event where
  | cardScanned (uid : String) (timestamp : Time)
  | scanResult (uid : String) (success : Bool) (error : Option String)
      (reservations : List Reservation)
  | rfidConnected (readerType : String)
  | rfidDisconnected
deriving DecidableEq, Repr

/-- Is this event a terminal `scanResult` broadcast? -/
def Event.isScanResult : Event → Bool
  | .scanResult _ _ _ _ => true
  | _ => false

/-- Mutable state owned by `RFIDService`. -/
structure RfidState where
  connected : Bool
  readerName : Option String
  cardHandlersAttached : Bool
  lastScanTime : Option Time
  scanHistory : List ScanEntry
  mockMode : Bool
deriving DecidableEq, Repr

/-- A freshly constructed `RFIDService` before any reader is discovered. -/
def initialRfidState (mockMode : Bool) : RfidState :=
  { connected := false
    readerName := none
    cardHandlersAttached := false
    lastScanTime := none
    scanHistory := []
    mockMode := mockMode }

/-- The hardcoded acceptance test of the `nfc.on('reader', ...)` handler:
`reader.name.toLowerCase()` must include `'acr'`, `'1252'` or `'nfc'`.
The configured `readerConfig.readerName` is not consulted. -/
def readerNameMatches (name : String) : Bool :=
  strContains (lowerStr name) "acr" ||
  strContains (lowerStr name) "1252" ||
  strContains (lowerStr name) "nfc"

/-- Modelled from the spec: "a reader is accepted only if its advertised name
matches the configured device family (case-insensitive substring match)" —
the advertised name must contain the configured reader name, ignoring case. -/
def specReaderAccepts (configuredName advertisedName : String) : Bool :=
  strContains (lowerStr advertisedName) (lowerStr configuredName)

/-- The `nfc.on('reader', ...)` handler: an accepted reader is stored, the
status becomes connected, `rfidConnected` is broadcast and the card handlers
are attached; any other reader leaves the state untouched and emits nothing. -/
def onReaderDetected (s : RfidState) (name : String) : RfidState × List Event :=
  if readerNameMatches name then
    ({ s with readerName := some name, connected := true, cardHandlersAttached := true },
     [Event.rfidConnected name])
  else
    (s, [])

/-- Recording one scan in the bounded history: `unshift` the new entry, then
`slice(0, 100)` whenever more than 100 entries are held. -/
def pushScan (history : List ScanEntry) (e : ScanEntry) : List ScanEntry :=
  let h := e :: history
  if h.length > 100 then h.take 100 else h

/-- `findIndex(scan => scan.uid === uidString)` followed by setting its
`processed` flag: marks the first entry carrying the scanned UID. -/
def markProcessed : List ScanEntry → String → List ScanEntry
  | [], _ => []
  | e :: rest, uid =>
    if e.uid == uid then { e with processed := true } :: rest
    else e :: markProcessed rest uid

/-- Everything one `processCardScan` invocation produces: the broadcast
sequence, the service state, the record store, and the list of student ids
for which a reservation lookup was issued. -/
structure ScanOutcome where
  events : List Event
  state : RfidState
  db : Db
  reservationLookups : List ℕ
deriving DecidableEq, Repr

/-- `RFIDService.processCardScan`: normalize the UID, record it in the bounded
history, broadcast `cardScanned`, resolve the user (stopping with a terminal
`User not found` result), evaluate access (stopping with a terminal
`Access denied` result), fetch today's reservations, broadcast the terminal
success result, and update the user's scan bookkeeping. -/
def processCardScan (now : Time) (rawUid : String) (s : RfidState) (db : Db) : ScanOutcome :=
  let uid := upperStr rawUid
  let s1 := { s with
    lastScanTime := some now
    scanHistory := pushScan s.scanHistory { uid := uid, timestamp := now, processed := false } }
  let progress := Event.cardScanned uid now
  match getUserByUID db uid with
  | none =>
    { events := [progress, Event.scanResult uid false (some "User not found") []]
      state := s1
      db := db
      reservationLookups := [] }
  | some user =>
    let (check, user', saved) := validateUserAccess now user
    let db1 := if saved then db.saveUser user' else db
    if !check.canAccess then
      { events := [progress, Event.scanResult uid false (some "Access denied") []]
        state := s1
        db := db1
        reservationLookups := [] }
    else
      let reservations := getTodayReservationsOk db1 user.id now
      let s2 := { s1 with scanHistory := markProcessed s1.scanHistory uid }
      let db2 := db1.bumpScan user.id now
      { events := [progress, Event.scanResult uid true none reservations]
        state := s2
        db := db2
        reservationLookups := [user.id] }

/-- `RFIDService.processManualScan`: operator-triggered scans delegate to the
very same pipeline. -/
def processManualScan (now : Time) (uid : String) (_socketId : String)
    (s : RfidState) (db : Db) : ScanOutcome :=
  processCardScan now uid s db

/-- `RFIDService.simulateScan`: only available in mock mode; otherwise it runs
the same pipeline. -/
def simulateScan (now : Time) (uid : String) (s : RfidState) (db : Db) :
    Except String ScanOutcome :=
  if !s.mockMode then .error "Simulate scan only available in mock mode"
  else .ok (processCardScan now uid s db)

/-! ## Concrete stores used to evaluate the operations on explicit inputs -/

/-- A store holding nothing. -/
def emptyDb : Db := { users := [], foods := [], reservations := [], purchases := [] }

/-- A block sub-document whose expiry (at time 5) has passed by time 10. -/
def expiredBlock : BlockInfo :=
  { reason := "Misuse"
    notes := ""
    blockedAt := some 1
    blockedBy := some 99
    expiresAt := some 5
    autoUnblockProcessed := false }

/-- An active student. -/
def studentU : User :=
  { id := 7
    uid := "A1B2"
    name := "Alex"
    class_or_year := "5A"
    user_category := "student"
    email := "alex@example.com"
    isActive := true
    lastScanAt := none
    scanCount := 3
    isBlocked := false
    blockInfo := clearedBlockInfo }

/-- A deactivated person who is also blocked, with an expiry in the past. -/
def blockedInactiveUser : User :=
  { studentU with id := 8, uid := "C3D4", email := "c@example.com",
                  isActive := false, isBlocked := true,
                  blockInfo := { expiredBlock with expiresAt := some (-5) } }

/-- An active person whose block expired at time 5. -/
def expiredBlockedUser : User :=
  { studentU with id := 9, uid := "E5F6", email := "e@example.com",
                  isBlocked := true, blockInfo := expiredBlock }

/-- An available food priced at 5. -/
def foodApple : Food :=
  { id := 1, name := "Apple", category := "fruit", price := 5, isAvailable := true, isActive := true }

/-- An available food priced at 0. -/
def foodWater : Food :=
  { id := 2, name := "Water", category := "drink", price := 0, isAvailable := true, isActive := true }

/-- A food referenced by the example reservation, priced at 4. -/
def foodPasta : Food :=
  { id := 3, name := "Pasta", category := "meal", price := 4, isAvailable := true, isActive := true }

/-- A pending lunch reservation for `studentU` whose actual cost is recorded
as `0` while the estimate is `5`. -/
def resvZeroActual : Reservation :=
  { id := 11
    parentId := 21
    studentId := 7
    foodId := 3
    reservationDate := 1000
    quantity := 2
    mealType := .lunch
    status := .pending
    estimatedCost := 5
    actualCost := some 0
    servedAt := none
    rfidProcessedAt := none
    servedByStation := "" }

/-- Store with the student, the foods and the example reservation. -/
def dbMain : Db :=
  { users := [studentU]
    foods := [foodApple, foodWater, foodPasta]
    reservations := [resvZeroActual]
    purchases := [] }

/-- A line item matching `foodApple` exactly. -/
def itemApple : PurchaseItem :=
  { foodId := 1, name := "Apple", price := 5, quantity := 1, subtotal := 5 }

/-- A line item matching `foodWater` exactly. -/
def itemWater : PurchaseItem :=
  { foodId := 2, name := "Water", price := 0, quantity := 1, subtotal := 0 }

/-- Base purchase payload for `itemApple`, total 5. -/
def applePayload : PurchaseData :=
  { userId := some 7
    uid := "A1B2"
    userName := "Alex"
    userCategory := some "student"
    items := [itemApple]
    totalAmount := 5
    paymentMethod := some .cash
    paidAmount := some 3
    cafeteriaStation := none
    processedBy := none
    notes := none }

/-- Cash payload tendering 0 against a total of 0. -/
def waterZeroCash : PurchaseData :=
  { applePayload with items := [itemWater], totalAmount := 0, paidAmount := some 0 }

/-- Cash payload tendering exactly the total of 5. -/
def appleExactCash : PurchaseData :=
  { applePayload with paidAmount := some 5 }

/-- Cash payload tendering 7 against a total of 5. -/
def appleOverCash : PurchaseData :=
  { applePayload with paidAmount := some 7 }

/-- Billed payload whose submitted total (100) is far from the computed 5. -/
def appleMismatched : PurchaseData :=
  { applePayload with totalAmount := 100, paymentMethod := some .monthly_billing,
                      paidAmount := none }

/-- Store whose only person is deactivated. -/
def dbInactive : Db :=
  { users := [blockedInactiveUser], foods := [], reservations := [], purchases := [] }

/-! ## Helper lemmas -/

theorem pushScan_eq_take (h : List ScanEntry) (e : ScanEntry) (hl : h.length ≤ 100) :
    pushScan h e = (e :: h).take 100 := by
  unfold pushScan
  by_cases hc : (e :: h).length > 100
  · simp only [hc, if_true]
  · simp only [hc, if_false]
    exact (List.take_of_length_le (by simp at hc ⊢; omega)).symm

theorem take_append_take (a b : List ScanEntry) (n : ℕ) :
    (a ++ b.take n).take n = (a ++ b).take n := by
  rw [List.take_append_eq_append_take, List.take_append_eq_append_take, List.take_take]
  have : (n - a.length) ⊓ n = n - a.length := by omega
  rw [this]

theorem foldl_pushScan_eq (scans : List ScanEntry) :
    ∀ h0 : List ScanEntry, h0.length ≤ 100 →
      scans.foldl pushScan h0 = (scans.reverse ++ h0).take 100 := by
  induction scans with
  | nil =>
    intro h0 hl
    simpa using (List.take_of_length_le hl).symm
  | cons e es ih =>
    intro h0 hl
    have h1 : (pushScan h0 e).length ≤ 100 := by
      rw [pushScan_eq_take h0 e hl, List.length_take]
      omega
    calc (e :: es).foldl pushScan h0 = es.foldl pushScan (pushScan h0 e) := rfl
      _ = (es.reverse ++ pushScan h0 e).take 100 := ih _ h1
      _ = (es.reverse ++ (e :: h0).take 100).take 100 := by rw [pushScan_eq_take h0 e hl]
      _ = (es.reverse ++ (e :: h0)).take 100 := take_append_take _ _ _
      _ = ((e :: es).reverse ++ h0).take 100 := by
          rw [List.reverse_cons, List.append_assoc, List.singleton_append]

theorem markProcessed_length (hist : List ScanEntry) (uid : String) :
    (markProcessed hist uid).length = hist.length := by
  induction hist with
  | nil => rfl
  | cons e t ih =>
    unfold markProcessed
    by_cases hc : e.uid == uid <;> simp [hc, ih]

theorem reservationLE_iff (a b : Reservation) :
    reservationLE a b = true ↔
      (a.mealType.sortKey < b.mealType.sortKey ∨
       (a.mealType.sortKey = b.mealType.sortKey ∧ a.reservationDate ≤ b.reservationDate)) := by
  simp [reservationLE, Bool.or_eq_true, Bool.and_eq_true, beq_iff_eq, decide_eq_true_eq]

theorem reservationLE_total (a b : Reservation) :
    (reservationLE a b || reservationLE b a) = true := by
  simp only [Bool.or_eq_true, reservationLE_iff]
  rcases Nat.lt_trichotomy a.mealType.sortKey b.mealType.sortKey with h | h | h
  · exact Or.inl (Or.inl h)
  · rcases le_total a.reservationDate b.reservationDate with hd | hd
    · exact Or.inl (Or.inr ⟨h, hd⟩)
    · exact Or.inr (Or.inr ⟨h.symm, hd⟩)
  · exact Or.inr (Or.inl h)

theorem reservationLE_trans (a b c : Reservation) :
    reservationLE a b = true → reservationLE b c = true → reservationLE a c = true := by
  simp only [reservationLE_iff]
  rintro (h1 | ⟨h1, d1⟩) (h2 | ⟨h2, d2⟩)
  · exact Or.inl (h1.trans h2)
  · exact Or.inl (lt_of_lt_of_le h1 (le_of_eq h2))
  · exact Or.inl (lt_of_le_of_lt (le_of_eq h1) h2)
  · exact Or.inr ⟨h1.trans h2, d1.trans d2⟩

theorem todayQuery_iff (userId : ℕ) (now : Time) (r : Reservation) :
    todayQuery userId now r = true ↔
      (r.studentId = userId ∧ startOfDay now ≤ r.reservationDate ∧
       r.reservationDate < startOfDay now + msPerDay ∧
       (r.status = .pending ∨ r.status = .confirmed ∨ r.status = .prepared)) := by
  have hdate : (r.reservationDate ≤ endOfDay now) ↔
      (r.reservationDate < startOfDay now + msPerDay) := by
    have hms : startOfDay now + msPerDay = (startOfDay now + (msPerDay - 1)) + 1 := by ring
    simp only [endOfDay]
    rw [hms, Int.lt_add_one_iff]
  simp only [todayQuery, Bool.and_eq_true, Bool.or_eq_true, beq_iff_eq,
    decide_eq_true_eq, hdate]
  tauto

theorem find_replace (l : List Reservation) (rid : ℕ) (r r' : Reservation)
    (h : l.find? (fun x => x.id == rid) = some r) (hid : r'.id = r.id) :
    (l.map (fun x => if x.id == r.id then r' else x)).find? (fun x => x.id == rid)
      = some r' := by
  have hrid : r.id = rid := by
    have := List.find?_some h
    simpa using this
  induction l with
  | nil => simp at h
  | cons y t ih =>
    by_cases hy : (y.id == rid) = true
    · rw [List.find?_cons_of_pos t (by exact hy)] at h
      have hyr : y = r := by simpa using h
      subst hyr
      simp only [List.map_cons, beq_self_eq_true, if_true]
      exact List.find?_cons_of_pos _ (by simp [hid, hrid])
    · have hyr : ¬ (y.id = rid) := by simpa using hy
      have hyne : ¬ (y.id = r.id) := by rw [hrid]; exact hyr
      rw [List.find?_cons_of_neg t (by exact hy)] at h
      have hif : (if (y.id == r.id) = true then r' else y) = y :=
        if_neg (by simpa using hyne)
      rw [List.map_cons, hif, List.find?_cons_of_neg _ (by simpa using hyr)]
      exact ih h

theorem confirm_served (now2 : Time) (st2 : String) (db2 : Db) (rid : ℕ)
    (r2 : Reservation) (hfind : db2.findReservation rid = some r2)
    (hst : r2.status = .served) :
    confirmReservation now2 st2 db2 rid =
      (.error "Reservation has already been served", db2) := by
  simp [confirmReservation, hfind, hst]

/-! ## Claims -/

/-- C6: for every sequence of scans the in-memory scan-history buffer never
holds more than 100 entries, and the retained entries are always the 100 most
recent (newest first, so the oldest are the ones evicted); marking an entry
processed never changes the buffer's size. -/
theorem C6_scan_history_bound (scans : List ScanEntry) (h0 : List ScanEntry)
    (hl : h0.length ≤ 100) :
    (scans.foldl pushScan h0).length ≤ 100 ∧
    scans.foldl pushScan h0 = (scans.reverse ++ h0).take 100 ∧
    ∀ hist uid, (markProcessed hist uid).length = hist.length := by
  refine ⟨?_, foldl_pushScan_eq scans h0 hl, fun hist uid => markProcessed_length hist uid⟩
  rw [foldl_pushScan_eq scans h0 hl, List.length_take]
  omega

theorem C6_scan_history_bound_witness :
    ([] : List ScanEntry).length ≤ 100 ∧
    ((([{ uid := "A1", timestamp := 1, processed := false }] : List ScanEntry).foldl
        pushScan []).length ≤ 100 ∧
     ([{ uid := "A1", timestamp := 1, processed := false }] : List ScanEntry).foldl pushScan []
       = (([{ uid := "A1", timestamp := 1, processed := false }] : List ScanEntry).reverse
           ++ []).take 100 ∧
     ∀ hist uid, (markProcessed hist uid).length = hist.length) :=
  ⟨by decide, C6_scan_history_bound [{ uid := "A1", timestamp := 1, processed := false }] []
     (by decide)⟩

/-- C5: a scan whose UID resolves to no person broadcasts the progress event
followed by the terminal `User not found` result only, issues no reservation
lookup, and leaves the record store (hence every person's scan counter and
last-scan timestamp) unchanged. -/
theorem C5_unknown_uid_stops (now : Time) (rawUid : String) (s : RfidState) (db : Db)
    (h : getUserByUID db (upperStr rawUid) = none) :
    (processCardScan now rawUid s db).events =
      [Event.cardScanned (upperStr rawUid) now,
       Event.scanResult (upperStr rawUid) false (some "User not found") []] ∧
    (processCardScan now rawUid s db).reservationLookups = [] ∧
    (processCardScan now rawUid s db).db = db := by
  simp [processCardScan, h]

theorem C5_unknown_uid_stops_witness :
    getUserByUID emptyDb (upperStr "ab12") = none ∧
    ((processCardScan 0 "ab12" (initialRfidState true) emptyDb).events =
      [Event.cardScanned (upperStr "ab12") 0,
       Event.scanResult (upperStr "ab12") false (some "User not found") []] ∧
     (processCardScan 0 "ab12" (initialRfidState true) emptyDb).reservationLookups = [] ∧
     (processCardScan 0 "ab12" (initialRfidState true) emptyDb).db = emptyDb) :=
  ⟨rfl, C5_unknown_uid_stops 0 "ab12" (initialRfidState true) emptyDb rfl⟩

/-- C9: every invocation of the scan pipeline emits the `cardScanned`
progress event strictly before exactly one terminal `scanResult` event;
manual scans and (mock-mode) simulated scans run the very same pipeline. -/
theorem C9_pipeline_events (now : Time) (uid sid : String) (s : RfidState) (db : Db) :
    (∃ r, (processCardScan now uid s db).events =
        [Event.cardScanned (upperStr uid) now, r] ∧ r.isScanResult = true) ∧
    ((processCardScan now uid s db).events.filter Event.isScanResult).length = 1 ∧
    processManualScan now uid sid s db = processCardScan now uid s db ∧
    simulateScan now uid s db =
      (if s.mockMode then .ok (processCardScan now uid s db)
       else .error "Simulate scan only available in mock mode") := by
  have key : ∃ r, (processCardScan now uid s db).events =
      [Event.cardScanned (upperStr uid) now, r] ∧ r.isScanResult = true := by
    cases hu : getUserByUID db (upperStr uid) with
    | none =>
      exact ⟨Event.scanResult (upperStr uid) false (some "User not found") [],
        by simp [processCardScan, hu], rfl⟩
    | some user =>
      rcases hv : validateUserAccess now user with ⟨check, user', saved⟩
      by_cases hc : check.canAccess
      · exact ⟨Event.scanResult (upperStr uid) true none
          (getTodayReservationsOk (if saved then db.saveUser user' else db) user.id now),
          by simp [processCardScan, hu, hv, hc], rfl⟩
      · exact ⟨Event.scanResult (upperStr uid) false (some "Access denied") [],
          by simp [processCardScan, hu, hv, hc], rfl⟩
  refine ⟨key, ?_, rfl, ?_⟩
  · rcases key with ⟨r, he, hr⟩
    rw [he]
    simp only [List.filter_cons, List.filter_nil]
    rw [show Event.isScanResult (Event.cardScanned (upperStr uid) now) = false from rfl, hr]
    simp
  · cases hm : s.mockMode <;> simp [simulateScan, hm]

/-- C10: a scan of a card whose stored person record is deactivated ends in
the terminal `User not found` result — never `Access denied` — because the
UID lookup itself filters on the activity flag. -/
theorem C10_inactive_card_not_found (now : Time) (rawUid : String) (s : RfidState) (db : Db)
    (_hex : ∃ u ∈ db.users, u.uid = upperStr rawUid ∧ u.isActive = false)
    (hall : ∀ u ∈ db.users, u.uid = upperStr rawUid → u.isActive = false) :
    getUserByUID db (upperStr rawUid) = none ∧
    (processCardScan now rawUid s db).events =
      [Event.cardScanned (upperStr rawUid) now,
       Event.scanResult (upperStr rawUid) false (some "User not found") []] ∧
    ∀ r ∈ (processCardScan now rawUid s db).events,
      r.isScanResult = true →
        r = Event.scanResult (upperStr rawUid) false (some "User not found") [] := by
  have hnone : getUserByUID db (upperStr rawUid) = none := by
    unfold getUserByUID
    rw [List.find?_eq_none]
    intro u hu
    simp only [Bool.and_eq_true, beq_iff_eq, not_and]
    intro he
    rw [hall u hu he]
    simp
  refine ⟨hnone, by simp [processCardScan, hnone], ?_⟩
  intro r hr hsr
  have he := (C5_unknown_uid_stops now rawUid s db hnone).1
  rw [he] at hr
  rcases List.mem_pair.mp hr with h1 | h2
  · rw [h1] at hsr; simp [Event.isScanResult] at hsr
  · exact h2

/-- C8: `getTodayReservations` returns exactly the stored reservations of the
given person dated within the current calendar day whose status is `pending`,
`confirmed` or `prepared`, ordered by meal slot (the stored strings' order)
and then by time; a storage read failure degrades to an empty list. -/
theorem C8_today_reservations (db : Db) (userId : ℕ) (now : Time) :
    (∀ r, r ∈ getTodayReservationsOk db userId now ↔
       (r ∈ db.reservations ∧ r.studentId = userId ∧
        startOfDay now ≤ r.reservationDate ∧
        r.reservationDate < startOfDay now + msPerDay ∧
        (r.status = .pending ∨ r.status = .confirmed ∨ r.status = .prepared))) ∧
    (getTodayReservationsOk db userId now).Perm
      (db.reservations.filter (todayQuery userId now)) ∧
    (getTodayReservationsOk db userId now).Pairwise
      (fun a b => a.mealType.sortKey < b.mealType.sortKey ∨
        (a.mealType.sortKey = b.mealType.sortKey ∧ a.reservationDate ≤ b.reservationDate)) ∧
    (∀ e, getTodayReservations (Except.error e) userId now = []) := by
  refine ⟨?_, ?_, ?_, fun e => rfl⟩
  · intro r
    rw [getTodayReservationsOk, List.mem_mergeSort, List.mem_filter, todayQuery_iff]
  · exact List.mergeSort_perm _ _
  · exact (List.sorted_mergeSort reservationLE_trans reservationLE_total _).imp
      (fun h => (reservationLE_iff _ _).mp h)

theorem calculateTotal_eq_sum (items : List PurchaseItem) :
    calculateTotal items = (items.map (fun i => i.price * (i.quantity : ℚ))).sum := by
  have h : ∀ (l : List PurchaseItem) (a : Money),
      l.foldl (fun total item => total + item.price * (item.quantity : ℚ)) a =
        a + (l.map (fun i => i.price * (i.quantity : ℚ))).sum := by
    intro l
    induction l with
    | nil => intro a; simp
    | cons x xs ih => intro a; simp [List.foldl_cons, ih, add_assoc]
  simpa [calculateTotal] using h items 0

/-- C3 counterexample: the `completePurchase` Socket.IO handler performs no
totals verification, so a purchase completion request whose submitted total
(100) differs from the computed total (5) by far more than 0.01 is persisted
instead of rejected. -/
theorem C3_counterexample :
    |calculateTotal appleMismatched.items - appleMismatched.totalAmount| > epsilon ∧
    (socketCompletePurchase 0 appleMismatched dbMain).toOption.map
        (fun x => (x.2.purchases.length, x.1.purchase.totalAmount)) = some (1, 100) := by
  constructor
  · have hcalc : calculateTotal appleMismatched.items = 5 := by
      show calculateTotal [itemApple] = 5
      rw [calculateTotal_eq_sum]
      norm_num [itemApple]
    have ht : appleMismatched.totalAmount = 100 := rfl
    rw [hcalc, ht]
    exact lt_abs.mpr (Or.inr (by norm_num [epsilon]))
  · rfl

/-- C3 (amended): `calculateTotal` equals the sum of `price * quantity` over
the items, and every purchase completion request submitted through the HTTP
route whose total differs from the computed value by more than 0.01 is
rejected with an error and persists no Purchase; the Socket.IO completion
path performs no such totals verification. -/
theorem C3_total_check (now : Time) (d : PurchaseData) (db : Db)
    (h : |calculateTotal d.items - d.totalAmount| > epsilon) :
    (∀ items, calculateTotal items =
        (items.map (fun i => i.price * (i.quantity : ℚ))).sum) ∧
    (∃ e, routeCompletePurchase now d db = (.error e, db)) := by
  refine ⟨calculateTotal_eq_sum, ?_⟩
  unfold routeCompletePurchase
  split
  · exact ⟨_, rfl⟩
  · split
    · exact ⟨_, rfl⟩
    · split
      · exact ⟨_, rfl⟩
      · exact ⟨"Total amount mismatch", rfl⟩

theorem C3_total_check_witness :
    |calculateTotal appleMismatched.items - appleMismatched.totalAmount| > epsilon ∧
    ((∀ items, calculateTotal items =
        (items.map (fun i => i.price * (i.quantity : ℚ))).sum) ∧
     (∃ e, routeCompletePurchase 0 appleMismatched dbMain = (.error e, dbMain))) := by
  have hyp : |calculateTotal appleMismatched.items - appleMismatched.totalAmount| > epsilon := by
    have hcalc : calculateTotal appleMismatched.items = 5 := by
      show calculateTotal [itemApple] = 5
      rw [calculateTotal_eq_sum]
      norm_num [itemApple]
    rw [hcalc, show appleMismatched.totalAmount = 100 from rfl]
    exact lt_abs.mpr (Or.inr (by norm_num [epsilon]))
  exact ⟨hyp, C3_total_check 0 appleMismatched dbMain hyp⟩

/-- C2 counterexample, three concrete completions: (i) through the Socket.IO
handler a cash purchase tendering 3 against a total of 5 is persisted as
`paid` instead of failing; (ii) through the HTTP route a tendered amount of 0
against a total of 0 is rejected as insufficient although tendered ≥ total;
(iii) through the HTTP route tendering exactly the total of 5 persists the
purchase with no change amount recorded (`null`), not a change of 0. -/
theorem C2_counterexample :
    ((3 : Money) < 5 ∧
     (socketCompletePurchase 0 applePayload dbMain).toOption.map
        (fun x => (x.1.purchase.paymentStatus, x.1.purchase.change, x.2.purchases.length)) =
       some (.paid, none, 1)) ∧
    ((0 : Money) ≥ 0 ∧
     routeCompletePurchase 0 waterZeroCash dbMain =
       (.error "Insufficient cash amount", dbMain)) ∧
    ((5 : Money) ≥ 5 ∧
     (routeCompletePurchase 0 appleExactCash dbMain).1.toOption.map
        (fun r => (r.purchase.paymentStatus, r.purchase.paidAt, r.purchase.cashAmount,
                   r.purchase.change)) =
       some (.paid, some 0, some 5, none)) := by
  have hfw : dbMain.foods.find? (fun f => f.id == itemWater.foodId) = some foodWater := rfl
  have hfa : dbMain.foods.find? (fun f => f.id == itemApple.foodId) = some foodApple := rfl
  have hvw : validatePurchaseItems dbMain.foods [itemWater] = .ok () := by
    unfold validatePurchaseItems
    rw [hfw]
    norm_num [foodWater, itemWater, epsilon, validatePurchaseItems]
  have hva : validatePurchaseItems dbMain.foods [itemApple] = .ok () := by
    unfold validatePurchaseItems
    rw [hfa]
    norm_num [foodApple, itemApple, epsilon, validatePurchaseItems]
  have hcw : calculateTotal [itemWater] = 0 := by
    rw [calculateTotal_eq_sum]; norm_num [itemWater]
  have hca : calculateTotal [itemApple] = 5 := by
    rw [calculateTotal_eq_sum]; norm_num [itemApple]
  refine ⟨⟨by norm_num, ?_⟩, ⟨le_refl 0, ?_⟩, ⟨le_refl 5, ?_⟩⟩
  · decide
  · simp only [routeCompletePurchase]
    norm_num [waterZeroCash, applePayload, hvw, hcw, cashInsufficient, epsilon]
  · simp only [routeCompletePurchase]
    norm_num [appleExactCash, applePayload, hva, hca, cashInsufficient, epsilon,
      completePurchase]
    exact ⟨_, rfl, rfl, rfl, rfl, rfl⟩

/-- C2 (amended): for cash requests through the HTTP completion route that
pass the payload, item and total validations: a tendered amount that is
absent, zero, or below the total is rejected with the insufficient-cash error
and persists nothing; a nonzero tendered amount at least the total persists
exactly one purchase with status `paid`, a paid-at stamp and the tendered
amount, whose recorded change is `tendered − total` when tendered exceeds the
total and `null` when it equals it (the response reports the same difference,
or 0).  The Socket.IO completion path performs none of these checks. -/
theorem C2_cash_completion (now : Time) (d : PurchaseData) (db : Db)
    (hm : d.paymentMethod = some .cash)
    (hun : d.userId.isNone = false)
    (hie : d.items.isEmpty = false)
    (hv : validatePurchaseItems db.foods d.items = .ok ())
    (ht : ¬ |calculateTotal d.items - d.totalAmount| > epsilon) :
    ((d.paidAmount = none ∨ d.paidAmount = some 0 ∨
        (∃ p, d.paidAmount = some p ∧ p < d.totalAmount)) →
      routeCompletePurchase now d db = (.error "Insufficient cash amount", db)) ∧
    (∀ p, d.paidAmount = some p → p ≠ 0 → d.totalAmount ≤ p →
      ∃ res db2, routeCompletePurchase now d db = (.ok res, db2) ∧
        db2.purchases = db.purchases ++ [res.purchase] ∧
        res.purchase.paymentStatus = .paid ∧
        res.purchase.paidAt = some now ∧
        res.purchase.cashAmount = some p ∧
        res.purchase.change =
          (if d.totalAmount < p then some (p - d.totalAmount) else none) ∧
        res.change = (if d.totalAmount < p then p - d.totalAmount else 0)) := by
  constructor
  · intro hins
    have hcik : cashInsufficient d = true := by
      rcases hins with h0 | h0 | ⟨p, hp, hlt⟩
      · simp [cashInsufficient, h0]
      · simp [cashInsufficient, h0]
      · simp [cashInsufficient, hp, hlt]
    simp [routeCompletePurchase, hun, hie, hm, hv, ht, hcik]
  · intro p hp hne hge
    have hcik : cashInsufficient d = false := by
      simp [cashInsufficient, hp, hne, not_lt.mpr hge]
    cases hud : d.userId with
    | none => rw [hud] at hun; simp at hun
    | some u =>
      rcases lt_or_eq_of_le hge with hlt | heq
      · -- tendered strictly above the total: change recorded
        have heval : routeCompletePurchase now d db =
            (.ok { purchase := cashPurchase now d u p (some (p - d.totalAmount))
                     (d.notes.getD "" ++ " | Cash payment" ++ " | Change")
                   message := "Cash payment completed successfully"
                   change := p - d.totalAmount },
             ({ db with purchases := db.purchases ++
                  [cashPurchase now d u p (some (p - d.totalAmount))
                     (d.notes.getD "" ++ " | Cash payment" ++ " | Change")] }).bumpScan
               u now) := by
          simp [routeCompletePurchase, hun, hie, hm, hv, ht, hcik,
            completePurchase, hud, hp, hlt, cashPurchase]
        refine ⟨_, _, heval, ?_, rfl, rfl, rfl, ?_, ?_⟩
        · simp [Db.bumpScan]
        · rw [if_pos hlt]; rfl
        · rw [if_pos hlt]
      · -- tendered exactly the total: no change recorded
        have hngt : ¬ (d.totalAmount < p) := by rw [heq]; exact lt_irrefl p
        have heval : routeCompletePurchase now d db =
            (.ok { purchase := cashPurchase now d u p none
                     (d.notes.getD "" ++ " | Cash payment")
                   message := "Cash payment completed successfully"
                   change := 0 },
             ({ db with purchases := db.purchases ++
                  [cashPurchase now d u p none
                     (d.notes.getD "" ++ " | Cash payment")] }).bumpScan u now) := by
          simp [routeCompletePurchase, hun, hie, hm, hv, ht, hcik,
            completePurchase, hud, hp, hngt, cashPurchase]
        refine ⟨_, _, heval, ?_, rfl, rfl, rfl, ?_, ?_⟩
        · simp [Db.bumpScan]
        · rw [if_neg hngt]; rfl
        · rw [if_neg hngt]

theorem C2_cash_completion_witness :
    appleOverCash.paymentMethod = some .cash ∧
    appleOverCash.userId.isNone = false ∧
    appleOverCash.items.isEmpty = false ∧
    validatePurchaseItems dbMain.foods appleOverCash.items = .ok () ∧
    ¬ |calculateTotal appleOverCash.items - appleOverCash.totalAmount| > epsilon ∧
    appleOverCash.paidAmount = some 7 ∧
    (∃ res db2, routeCompletePurchase 0 appleOverCash dbMain = (.ok res, db2) ∧
      db2.purchases = dbMain.purchases ++ [res.purchase] ∧
      res.purchase.paymentStatus = .paid ∧
      res.purchase.paidAt = some 0 ∧
      res.purchase.cashAmount = some 7 ∧
      res.purchase.change =
        (if appleOverCash.totalAmount < 7 then some (7 - appleOverCash.totalAmount)
         else none) ∧
      res.change = (if appleOverCash.totalAmount < 7 then 7 - appleOverCash.totalAmount
         else 0)) := by
  have hv : validatePurchaseItems dbMain.foods appleOverCash.items = .ok () := by
    show validatePurchaseItems dbMain.foods [itemApple] = .ok ()
    unfold validatePurchaseItems
    rw [show dbMain.foods.find? (fun f => f.id == itemApple.foodId) = some foodApple from rfl]
    norm_num [foodApple, itemApple, epsilon, validatePurchaseItems]
  have ht : ¬ |calculateTotal appleOverCash.items - appleOverCash.totalAmount| > epsilon := by
    have hc : calculateTotal appleOverCash.items = 5 := by
      show calculateTotal [itemApple] = 5
      rw [calculateTotal_eq_sum]
      norm_num [itemApple]
    rw [hc, show appleOverCash.totalAmount = (5 : ℚ) from rfl]
    norm_num [epsilon]
  exact ⟨rfl, rfl, rfl, hv, ht, rfl,
    (C2_cash_completion 0 appleOverCash dbMain rfl rfl rfl hv ht).2 7 rfl (by norm_num)
      (by rw [show appleOverCash.totalAmount = (5 : ℚ) from rfl]; norm_num)⟩

/-- C1 counterexample: the example reservation records an actual cost of 0
beside an estimate of 5, yet the purchase created on confirmation prices the
item at the estimate 5 (JavaScript `actualCost || estimatedCost` treats the
recorded 0 as absent), so "actual cost if recorded" fails. -/
theorem C1_counterexample :
    resvZeroActual.actualCost = some 0 ∧
    resvZeroActual.estimatedCost = 5 ∧
    ((confirmReservation 0 "STATION_001" dbMain 11).1.toOption.map
        (fun x => x.2.items.map (fun i => i.price))) = some [5] ∧
    (5 : Money) ≠ 0 := by
  refine ⟨rfl, rfl, ?_, by norm_num⟩
  rfl

/-- C1 (amended): confirming an existing reservation that is neither `served`
nor `cancelled` (and whose food and student records resolve) marks it served
and creates exactly one Purchase from the reservation's food, quantity and
cost — the actual cost when recorded *and nonzero*, else the estimated cost —
with payment status `pending`; confirming the same id again fails with the
already-served error and changes nothing. -/
theorem C1_confirm_twice (now now2 : Time) (st st2 : String) (db : Db) (rid : ℕ)
    (r : Reservation) (food : Food) (student : User)
    (hr : db.findReservation rid = some r)
    (hs1 : r.status ≠ .served)
    (hs2 : r.status ≠ .cancelled)
    (hf : db.findFood r.foodId = some food)
    (hu : db.findUser r.studentId = some student) :
    ∃ r2 p db2,
      confirmReservation now st db rid = (.ok (r2, p), db2) ∧
      r2 = markServedByRFID r now st ∧
      r2.status = .served ∧ r2.servedAt = some now ∧ r2.servedByStation = st ∧
      db2.purchases = db.purchases ++ [p] ∧
      p.items = [{ foodId := r.foodId
                   name := food.name
                   price := r.effectiveCost
                   quantity := r.quantity
                   subtotal := r.effectiveCost * (r.quantity : ℚ) }] ∧
      p.totalAmount = r.effectiveCost * (r.quantity : ℚ) ∧
      p.paymentStatus = .pending ∧
      (confirmReservation now2 st2 db2 rid).1 = .error "Reservation has already been served" ∧
      (confirmReservation now2 st2 db2 rid).2 = db2 := by
  have hid2 : (markServedByRFID r now st).id = r.id := rfl
  have heval : confirmReservation now st db rid =
      (.ok (markServedByRFID r now st, reservationPurchase now st r food student),
       confirmedDb now st db r food student) := by
    simp [confirmReservation, hr, hs1, hs2, hf, hu, completePurchase,
      Db.saveReservation, Db.bumpScan, reservationPurchase, markServedByRFID,
      Reservation.effectiveCost, confirmedDb]
  have hfind2 : (confirmedDb now st db r food student).findReservation rid
      = some (markServedByRFID r now st) :=
    find_replace db.reservations rid r (markServedByRFID r now st)
      (by simpa [Db.findReservation] using hr) hid2
  have hsecond := confirm_served now2 st2 (confirmedDb now st db r food student) rid
    (markServedByRFID r now st) hfind2 rfl
  refine ⟨markServedByRFID r now st, reservationPurchase now st r food student,
    confirmedDb now st db r food student,
    heval, rfl, rfl, rfl, rfl, rfl, rfl, rfl, rfl, ?_, ?_⟩
  · rw [hsecond]
  · rw [hsecond]

theorem C1_confirm_twice_witness :
    dbMain.findReservation 11 = some resvZeroActual ∧
    resvZeroActual.status ≠ .served ∧
    resvZeroActual.status ≠ .cancelled ∧
    dbMain.findFood resvZeroActual.foodId = some foodPasta ∧
    dbMain.findUser resvZeroActual.studentId = some studentU ∧
    (∃ r2 p db2,
      confirmReservation 0 "STATION_001" dbMain 11 = (.ok (r2, p), db2) ∧
      r2 = markServedByRFID resvZeroActual 0 "STATION_001" ∧
      r2.status = .served ∧ r2.servedAt = some 0 ∧ r2.servedByStation = "STATION_001" ∧
      db2.purchases = dbMain.purchases ++ [p] ∧
      p.items = [{ foodId := resvZeroActual.foodId
                   name := foodPasta.name
                   price := resvZeroActual.effectiveCost
                   quantity := resvZeroActual.quantity
                   subtotal := resvZeroActual.effectiveCost * (resvZeroActual.quantity : ℚ) }] ∧
      p.totalAmount = resvZeroActual.effectiveCost * (resvZeroActual.quantity : ℚ) ∧
      p.paymentStatus = .pending ∧
      (confirmReservation 1 "S2" db2 11).1 = .error "Reservation has already been served" ∧
      (confirmReservation 1 "S2" db2 11).2 = db2) :=
  ⟨rfl, by decide, by decide, rfl, rfl,
   C1_confirm_twice 0 1 "STATION_001" "S2" dbMain 11 resvZeroActual foodPasta studentU
     rfl (by decide) (by decide) rfl rfl⟩

/-- C4 counterexample: a person who is blocked with an expiry in the past but
whose activity flag is false is denied access (the inactive branch runs
first), so the claim's unconditional "grants access" fails. -/
theorem C4_counterexample :
    blockedInactiveUser.isBlocked = true ∧
    blockedInactiveUser.blockInfo.expiresAt = some (-5) ∧
    (-5 : Time) < 0 ∧
    (validateUserAccess 0 blockedInactiveUser).1.canAccess = false ∧
    (validateUserAccess 0 blockedInactiveUser).2.2 = false := by
  refine ⟨rfl, rfl, by decide, rfl, rfl⟩

/-- C4 (amended): for every *active* person who is blocked with an expiry in
the past, the access check grants access, clears every block field and
persists that write; every person who is blocked with no expiry or with an
expiry in the future is denied access with a reason (and nothing is
persisted). -/
theorem C4_access_check (now : Time) (u : User) :
    (u.isActive = true → u.isBlocked = true →
      ∀ e, u.blockInfo.expiresAt = some e → e < now →
        (validateUserAccess now u).1.canAccess = true ∧
        (validateUserAccess now u).2.1.isBlocked = false ∧
        (validateUserAccess now u).2.1.blockInfo.reason = "" ∧
        (validateUserAccess now u).2.1.blockInfo.notes = "" ∧
        (validateUserAccess now u).2.1.blockInfo.blockedAt = none ∧
        (validateUserAccess now u).2.1.blockInfo.blockedBy = none ∧
        (validateUserAccess now u).2.1.blockInfo.expiresAt = none ∧
        (validateUserAccess now u).2.2 = true) ∧
    (u.isBlocked = true →
      (u.blockInfo.expiresAt = none ∨ (∃ e, u.blockInfo.expiresAt = some e ∧ now < e)) →
      (validateUserAccess now u).1.canAccess = false ∧
      (validateUserAccess now u).1.reason.isSome = true ∧
      (validateUserAccess now u).2.2 = false) := by
  constructor
  · intro ha hb e he hlt
    have hgt : now > e := hlt
    simp [validateUserAccess, ha, hb, he, hgt, clearedBlockInfo]
  · intro hb hexp
    cases ha : u.isActive with
    | false => simp [validateUserAccess, ha]
    | true =>
      rcases hexp with hnone | ⟨e, he, hfut⟩
      · simp [validateUserAccess, ha, hb, hnone]
      · have : ¬ now > e := not_lt_of_ge (le_of_lt hfut)
        simp [validateUserAccess, ha, hb, he, this]

theorem C4_access_check_witness :
    expiredBlockedUser.isActive = true ∧
    expiredBlockedUser.isBlocked = true ∧
    expiredBlockedUser.blockInfo.expiresAt = some 5 ∧
    (5 : Time) < 10 ∧
    ((validateUserAccess 10 expiredBlockedUser).1.canAccess = true ∧
     (validateUserAccess 10 expiredBlockedUser).2.1.isBlocked = false ∧
     (validateUserAccess 10 expiredBlockedUser).2.1.blockInfo.reason = "" ∧
     (validateUserAccess 10 expiredBlockedUser).2.1.blockInfo.notes = "" ∧
     (validateUserAccess 10 expiredBlockedUser).2.1.blockInfo.blockedAt = none ∧
     (validateUserAccess 10 expiredBlockedUser).2.1.blockInfo.blockedBy = none ∧
     (validateUserAccess 10 expiredBlockedUser).2.1.blockInfo.expiresAt = none ∧
     (validateUserAccess 10 expiredBlockedUser).2.2 = true) :=
  ⟨rfl, rfl, rfl, by decide,
   (C4_access_check 10 expiredBlockedUser).1 rfl rfl 5 rfl (by decide)⟩

/-- C7 counterexample: with the default configured family name `ACR1252`, a
reader advertising `PN532 NFC Reader` is accepted by the code (its lower-cased
name contains the hardcoded substring `nfc`) even though it does not contain
the configured name — so acceptance is not the claimed configured-name match. -/
theorem C7_counterexample :
    (onReaderDetected (initialRfidState false) "PN532 NFC Reader").1.connected = true ∧
    (onReaderDetected (initialRfidState false) "PN532 NFC Reader").1.cardHandlersAttached
      = true ∧
    (onReaderDetected (initialRfidState false) "PN532 NFC Reader").2
      = [Event.rfidConnected "PN532 NFC Reader"] ∧
    specReaderAccepts "ACR1252" "PN532 NFC Reader" = false := by
  refine ⟨by decide, by decide, by decide, by decide⟩

/-- C7 (amended): on discovery a reader is accepted — connection established,
`rfidConnected` broadcast, card handlers attached — if and only if its
lower-cased advertised name contains one of the hardcoded substrings `acr`,
`1252` or `nfc` (the configured reader name is not consulted); a reader whose
name matches none of them is ignored without any state change or error event. -/
theorem C7_reader_acceptance (s : RfidState) (name : String)
    (hc : s.connected = false) (hh : s.cardHandlersAttached = false) :
    (((onReaderDetected s name).1.connected = true ∧
      (onReaderDetected s name).1.cardHandlersAttached = true ∧
      (onReaderDetected s name).2 = [Event.rfidConnected name]) ↔
        (strContains (lowerStr name) "acr" = true ∨
         strContains (lowerStr name) "1252" = true ∨
         strContains (lowerStr name) "nfc" = true)) ∧
    (readerNameMatches name = false → onReaderDetected s name = (s, [])) := by
  constructor
  · by_cases hm : readerNameMatches name
    · simp only [onReaderDetected, hm, if_true]
      simp only [readerNameMatches, Bool.or_eq_true] at hm
      simp only [true_and, and_true]
      tauto
    · simp only [onReaderDetected, hm, Bool.false_eq_true, if_false]
      simp only [readerNameMatches, Bool.or_eq_true] at hm
      push_neg at hm
      simp [hc, hm]
  · intro hm
    simp [onReaderDetected, hm]

theorem C7_reader_acceptance_witness :
    (initialRfidState false).connected = false ∧
    (initialRfidState false).cardHandlersAttached = false ∧
    ((((onReaderDetected (initialRfidState false) "ACS ACR1252 1S CL Reader").1.connected
          = true ∧
       (onReaderDetected (initialRfidState false) "ACS ACR1252 1S CL Reader"
          ).1.cardHandlersAttached = true ∧
       (onReaderDetected (initialRfidState false) "ACS ACR1252 1S CL Reader").2
          = [Event.rfidConnected "ACS ACR1252 1S CL Reader"]) ↔
         (strContains (lowerStr "ACS ACR1252 1S CL Reader") "acr" = true ∨
          strContains (lowerStr "ACS ACR1252 1S CL Reader") "1252" = true ∨
          strContains (lowerStr "ACS ACR1252 1S CL Reader") "nfc" = true)) ∧
     (readerNameMatches "ACS ACR1252 1S CL Reader" = false →
       onReaderDetected (initialRfidState false) "ACS ACR1252 1S CL Reader"
         = (initialRfidState false, []))) :=
  ⟨rfl, rfl,
   C7_reader_acceptance (initialRfidState false) "ACS ACR1252 1S CL Reader" rfl rfl⟩

theorem C10_inactive_card_not_found_witness :
    (∃ u ∈ dbInactive.users, u.uid = upperStr "c3d4" ∧ u.isActive = false) ∧
    (∀ u ∈ dbInactive.users, u.uid = upperStr "c3d4" → u.isActive = false) ∧
    (getUserByUID dbInactive (upperStr "c3d4") = none ∧
     (processCardScan 0 "c3d4" (initialRfidState true) dbInactive).events =
       [Event.cardScanned (upperStr "c3d4") 0,
        Event.scanResult (upperStr "c3d4") false (some "User not found") []] ∧
     ∀ r ∈ (processCardScan 0 "c3d4" (initialRfidState true) dbInactive).events,
       r.isScanResult = true →
         r = Event.scanResult (upperStr "c3d4") false (some "User not found") []) :=
  ⟨⟨blockedInactiveUser, by decide, by decide, by decide⟩,
   fun u hu he => by
     have : u = blockedInactiveUser := by
       simpa [dbInactive] using hu
     rw [this]; rfl,
   C10_inactive_card_not_found 0 "c3d4" (initialRfidState true) dbInactive
     ⟨blockedInactiveUser, by decide, by decide, by decide⟩
     (fun u hu he => by
       have : u = blockedInactiveUser := by
         simpa [dbInactive] using hu
       rw [this]; rfl)⟩

end RfidPos
